import Mathlib

/-!
Verification of the biblio in-memory library service (src/main.py).

The Python source keeps all state in a global dictionary `STORES` holding
books, users, reviews (a dict keyed by `str(book_id)`) and tokens, plus two
module-level id counters.  The shallow embedding below represents that state
as the `Store` structure (the review dict becomes an association list with
`Nat` keys, faithful because `str` is injective on the ints used as keys),
and each facade method / endpoint becomes a pure function from a `Store`
(and its arguments) to a new `Store` and a result.  Fallible endpoints
return `Except ApiError`, mirroring the `HTTPException` kinds raised by the
source.  `hashlib.sha256(...).hexdigest()` is an external library call; the
functions that use it take the digest function as an explicit parameter
`hashFn`, exactly where the source calls the global `_hash_password`.
-/

namespace Biblio

/-- Python `str.lower()` restricted to the per-character lowering Lean
provides; written over the character list so concrete instances reduce. -/
def strLower (s : String) : String := String.mk (s.data.map Char.toLower)

/-- Python `str.strip()`: drop whitespace from both ends. -/
def strStrip (s : String) : String :=
  String.mk (((s.data.dropWhile Char.isWhitespace).reverse.dropWhile Char.isWhitespace).reverse)

/-- Python `q in hay` after lowering both sides, i.e. the case-insensitive
substring test used by `list_books`. -/
def containsCI (hay q : String) : Bool :=
  decide ((strLower q).data <:+: (strLower hay).data)

/-- A book record as stored in `STORES["books"]`. -/
structure Book where
  id : Nat
  titulo : String
  autor : String
  categoria : String
  contenido : String
deriving DecidableEq

/-- A review record as stored in the per-book lists of `STORES["reviews"]`. -/
structure Review where
  usuario_id : Nat
  texto : String
  cal : Int
deriving DecidableEq

/-- A user record as stored in `STORES["users"]`. -/
structure User where
  id : Nat
  nombre : String
  email : String
  password_hash : String
  rol : String
  biblioteca : List Nat
deriving DecidableEq

/-- The global state: the four collections of `STORES` plus the two
module-level id counters `_next_book_id` and `_next_user_id`. -/
structure Store where
  books : List Book
  users : List User
  reviews : List (Nat × List Review)
  tokens : List (String × Nat)
  nextBookId : Nat
  nextUserId : Nat
deriving DecidableEq

/-- The error kinds the endpoints raise as `HTTPException` status codes
(404, 409, 422, 403, 401). -/
inductive ApiError where
  | NotFound
  | Conflict
  | ValidationError
  | Forbidden
  | Unauthenticated
deriving DecidableEq

/-- Event payloads (`Dict[str, Any]` in the source); only passed through. -/
abbrev Payload := List (String × String)

/-- An observer: its `update(event, data)` method may raise (modelled as
`Except`); the string carries the exception message. -/
structure Observer where
  update : String → Payload → Except String Unit

/-- Class `EventSubject`: holds the subscribed observers in subscription order. -/
structure EventSubject where
  observers : List Observer

/-- Method `EventSubject.subscribe`: appends the observer. -/
def EventSubject.subscribe (subj : EventSubject) (o : Observer) : EventSubject :=
  { subj with observers := subj.observers ++ [o] }

/-- The loop body of `EventSubject.notify`: call each observer in turn
inside `try/except`; a raised exception is caught (the source prints it) and
the loop continues with the next observer.  The returned list records the
outcome of each attempted call, in order. -/
def notifyLoop : List Observer → String → Payload → List (Except String Unit)
  | [], _, _ => []
  | o :: rest, e, d =>
    match o.update e d with
    | Except.ok u => Except.ok u :: notifyLoop rest e d
    | Except.error msg => Except.error msg :: notifyLoop rest e d

/-- Method `EventSubject.notify(event, data)`. -/
def EventSubject.notify (subj : EventSubject) (e : String) (d : Payload) :
    List (Except String Unit) :=
  notifyLoop subj.observers e d

/-- Method `LibraryFacade.add_book`: assigns `next_book_id()` (returns current
counter and increments it) and appends the new book. -/
def add_book (s : Store) (titulo autor categoria contenido : String) : Store × Book :=
  let book : Book := ⟨s.nextBookId, titulo, autor, categoria, contenido⟩
  ({ s with books := s.books ++ [book], nextBookId := s.nextBookId + 1 }, book)

/-- Helper `applyChanges` mirrors the four `if changes.get(k) is not None` bodies of
`LibraryFacade.update_book`: a field is overwritten exactly when the change
set carries a non-`None` value for it. -/
def applyChanges (b : Book) (c : Option String × Option String × Option String × Option String) : Book :=
  { b with
    titulo := c.1.getD b.titulo
    autor := c.2.1.getD b.autor
    categoria := c.2.2.1.getD b.categoria
    contenido := c.2.2.2.getD b.contenido }

/-- The `for b in books` loop of `update_book`: mutate the first book whose
id matches (and stop), returning the updated list and the updated record. -/
def updateFirst (books : List Book) (libro_id : Nat)
    (c : Option String × Option String × Option String × Option String) :
    List Book × Option Book :=
  match books with
  | [] => ([], none)
  | b :: rest =>
    if b.id == libro_id then (applyChanges b c :: rest, some (applyChanges b c))
    else
      let r := updateFirst rest libro_id c
      (b :: r.1, r.2)

/-- Method `LibraryFacade.update_book`: returns the updated book, or `none` when no
book has the given id (the endpoint then raises 404). -/
def update_book (s : Store) (libro_id : Nat)
    (c : Option String × Option String × Option String × Option String) :
    Store × Option Book :=
  let r := updateFirst s.books libro_id c
  ({ s with books := r.1 }, r.2)

/-- Method `LibraryFacade.delete_book`: pop the first book with the given id and
`reviews.pop(str(libro_id), None)`; `False` when the id is absent. -/
def delete_book (s : Store) (libro_id : Nat) : Store × Bool :=
  if s.books.any (fun b => b.id == libro_id) then
    ({ s with books := s.books.eraseP (fun b => b.id == libro_id),
              reviews := s.reviews.eraseP (fun p => p.1 == libro_id) }, true)
  else (s, false)

/-- Method `LibraryFacade.get_book`. -/
def get_book (s : Store) (libro_id : Nat) : Option Book :=
  s.books.find? (fun b => b.id == libro_id)

/-- Method `LibraryFacade.list_books(categoria, search)`: each filter is applied
only when its argument is truthy (present and non-empty), category by
lowered equality, search by lowered substring on title or author. -/
def list_books (s : Store) (categoria search : Option String) : List Book :=
  let items := s.books
  let items :=
    match categoria with
    | some c => if c = "" then items else items.filter (fun b => strLower b.categoria == strLower c)
    | none => items
  match search with
  | some q => if q = "" then items else items.filter (fun b => containsCI b.titulo q || containsCI b.autor q)
  | none => items

/-- Model of `STORES["reviews"].setdefault(str(libro_id), []).append(rec)`. -/
def appendReview (revs : List (Nat × List Review)) (k : Nat) (r : Review) :
    List (Nat × List Review) :=
  if revs.any (fun p => p.1 == k) then
    revs.map (fun p => if p.1 == k then (p.1, p.2 ++ [r]) else p)
  else revs ++ [(k, [r])]

/-- Method `LibraryFacade.add_review`: builds the record and appends it to the
book's list, with no validation of any kind. -/
def add_review (s : Store) (libro_id usuario_id : Nat) (texto : String) (cal : Int) :
    Store × Review :=
  let rec' : Review := ⟨usuario_id, texto, cal⟩
  ({ s with reviews := appendReview s.reviews libro_id rec' }, rec')

/-- Method `LibraryFacade.register_user`: assigns `next_user_id()`, stores the
record (role taken verbatim, empty personal library) and returns it. -/
def register_user (s : Store) (nombre email password_hash rol : String) : Store × User :=
  let user : User := ⟨s.nextUserId, nombre, email, password_hash, rol, []⟩
  ({ s with users := s.users ++ [user], nextUserId := s.nextUserId + 1 }, user)

/-- Method `LibraryFacade.authenticate`: find the user by lowered email; `None`
when absent or when the stored digest differs from `hashFn` of the supplied
password. -/
def authenticate (s : Store) (hashFn : String → String) (email clave_plain : String) :
    Option User :=
  match s.users.find? (fun u => strLower u.email == strLower email) with
  | none => none
  | some user => if user.password_hash ≠ hashFn clave_plain then none else some user

/-- Helper `_get_user_by_email`: first user whose lowered email matches. -/
def get_user_by_email (users : List User) (email : String) : Option User :=
  users.find? (fun u => strLower u.email == strLower email)

/-- Guard `admin_required`: 403 unless the role is exactly `"admin"`. -/
def admin_required (user : User) : Except ApiError Unit :=
  if user.rol ≠ "admin" then Except.error ApiError.Forbidden else Except.ok ()

/-- The `UserCreate` request model; `rol` defaults to `"usuario"` when the
field is omitted from the request body. -/
structure UserCreate where
  nombre : String
  email : String
  clave : String
  rol : String
deriving DecidableEq

/-- A `UserCreate` body in which the `rol` field was omitted, so pydantic
fills in the declared default `"usuario"`. -/
def UserCreate.noRole (nombre email clave : String) : UserCreate :=
  ⟨nombre, email, clave, "usuario"⟩

/-- The `UserOut` response model. -/
structure UserOut where
  id : Nat
  nombre : String
  email : String
  rol : String
deriving DecidableEq

/-- Endpoint `registrar_usuario` (`POST /api/v1/usuarios`): 409 when a user
with the same lowered email exists, otherwise register with the stripped and
lowered email, the hashed password and the payload's role.  The endpoint
declares no authentication dependency: it takes no caller identity at all. -/
def registrar_usuario (s : Store) (p : UserCreate) (hashFn : String → String) :
    Except ApiError (Store × UserOut) :=
  match get_user_by_email s.users p.email with
  | some _ => Except.error ApiError.Conflict
  | none =>
    let r := register_user s p.nombre (strLower (strStrip p.email)) (hashFn p.clave) p.rol
    Except.ok (r.1, ⟨r.2.id, r.2.nombre, r.2.email, r.2.rol⟩)

/-- Endpoint `eliminar_libro` (`DELETE /api/v1/libros/{id}`): admin gate,
then `delete_book`, raising 404 when it reports `False`. -/
def eliminar_libro (s : Store) (user : User) (libro_id : Nat) : Except ApiError Store :=
  match admin_required user with
  | Except.error e => Except.error e
  | Except.ok _ =>
    let r := delete_book s libro_id
    if r.2 then Except.ok r.1 else Except.error ApiError.NotFound

/-- Endpoint `listar_reseñas` (`GET /api/v1/libros/{id}/reseñas`):
`STORES["reviews"].get(str(libro_id), [])`. -/
def listar_resenas (s : Store) (libro_id : Nat) : List Review :=
  ((s.reviews.find? (fun p => p.1 == libro_id)).map Prod.snd).getD []

/-- Endpoint `crear_reseña` (`POST /api/v1/libros/{id}/reseñas`): the
`ReviewCreate` model (validated by the framework before the handler runs)
requires `texto` of length ≥ 1 and `1 ≤ cal ≤ 5`; the handler raises 404
when the book is absent and otherwise calls `add_review`. -/
def crear_resena (s : Store) (libro_id : Nat) (texto : String) (cal : Int)
    (usuario_id : Nat) : Except ApiError (Store × Review) :=
  if texto.length < 1 ∨ cal < 1 ∨ 5 < cal then Except.error ApiError.ValidationError
  else if (get_book s libro_id).isSome then Except.ok (add_review s libro_id usuario_id texto cal)
  else Except.error ApiError.NotFound

/-- A facade-level operation sequence on books, for the id-freshness claim:
any interleaving of `add_book` and `delete_book` calls. -/
inductive LibOp where
  | add (titulo autor categoria contenido : String)
  | del (libro_id : Nat)

/-- Run a sequence of operations, collecting the id of every book returned
by `add_book`, in call order. -/
def runOps (s : Store) : List LibOp → Store × List Nat
  | [] => (s, [])
  | LibOp.add t a c k :: rest =>
    let r := add_book s t a c k
    let r2 := runOps r.1 rest
    (r2.1, r.2.id :: r2.2)
  | LibOp.del i :: rest =>
    let r := delete_book s i
    runOps r.1 rest

/-! ### Helper lemmas -/

theorem strLength_zero_iff (s : String) : s.length = 0 ↔ s = "" := by
  cases s with
  | mk data =>
    cases data with
    | nil => exact ⟨fun _ => rfl, fun _ => rfl⟩
    | cons c cs =>
      constructor
      · intro h
        simp [String.length] at h
      · intro h
        cases congrArg String.data h

theorem notifyLoop_eq_map (obs : List Observer) (e : String) (d : Payload) :
    notifyLoop obs e d = obs.map (fun o => o.update e d) := by
  induction obs with
  | nil => rfl
  | cons o rest ih =>
    simp only [notifyLoop, List.map]
    cases h : o.update e d <;> simp [h, ih]

theorem delete_book_nextBookId (s : Store) (i : Nat) :
    (delete_book s i).1.nextBookId = s.nextBookId := by
  unfold delete_book
  split <;> rfl

theorem runOps_ids_spec : ∀ (ops : List LibOp) (s : Store),
    (∀ x ∈ (runOps s ops).2, s.nextBookId ≤ x) ∧
    (runOps s ops).2.Pairwise (· < ·) := by
  intro ops
  induction ops with
  | nil =>
    intro s
    exact ⟨fun x hx => absurd hx (List.not_mem_nil x), List.Pairwise.nil⟩
  | cons op rest ih =>
    intro s
    cases op with
    | add t a c k =>
      obtain ⟨hb, hp⟩ := ih (add_book s t a c k).1
      have hnext : (add_book s t a c k).1.nextBookId = s.nextBookId + 1 := rfl
      rw [hnext] at hb
      constructor
      · intro x hx
        simp only [runOps] at hx
        rcases List.mem_cons.mp hx with h | h
        · exact le_of_eq h.symm
        · exact Nat.le_of_succ_le (hb x h)
      · simp only [runOps]
        exact List.pairwise_cons.mpr ⟨fun y hy => Nat.lt_of_succ_le (hb y hy), hp⟩
    | del i =>
      obtain ⟨hb, hp⟩ := ih (delete_book s i).1
      rw [delete_book_nextBookId] at hb
      exact ⟨fun x hx => hb x (by simpa [runOps] using hx), by simpa [runOps] using hp⟩

/-! ### Claims -/

/-- Claim C1: over any sequence of `add_book` calls interleaved with
`delete_book` calls, from any starting store, the ids returned by
`add_book` are strictly increasing (pairwise `<` in call order) and no id
is ever issued twice; deletions do not free ids for reuse, since the
sequence may interleave them arbitrarily. -/
theorem C1_book_ids_strictly_increasing (s : Store) (ops : List LibOp) :
    (runOps s ops).2.Pairwise (· < ·) ∧ (runOps s ops).2.Nodup := by
  have h := (runOps_ids_spec ops s).2
  exact ⟨h, h.imp fun hlt => Nat.ne_of_lt hlt⟩

/-- Claim C9: `notify` invokes every registered observer exactly once,
synchronously, in subscription order, each receiving the event name and
payload; a failing observer's exception is caught and neither propagates
nor prevents the remaining observers from being invoked (each recorded
outcome is that observer's own `update` result, independent of earlier
failures, and the attempt list always covers all observers).  Moreover
`subscribe` appends, so a newly subscribed observer is attempted last. -/
theorem C9_notify_attempts_all_observers (subj : EventSubject) (e : String) (d : Payload) :
    subj.notify e d = subj.observers.map (fun o => o.update e d) ∧
    (subj.notify e d).length = subj.observers.length ∧
    (∀ o : Observer, (subj.subscribe o).notify e d = subj.notify e d ++ [o.update e d]) := by
  refine ⟨notifyLoop_eq_map subj.observers e d, ?_, ?_⟩
  · rw [EventSubject.notify, notifyLoop_eq_map, List.length_map]
  · intro o
    show notifyLoop (subj.observers ++ [o]) e d = notifyLoop subj.observers e d ++ _
    rw [notifyLoop_eq_map, notifyLoop_eq_map, List.map_append]
    rfl

/-- Concrete data for instantiating the theorems below. -/
def sampleBook : Book := ⟨1, "Dune", "Herbert", "Novela", "contenido x"⟩

def sampleAdmin : User := ⟨1, "Administrador", "admin@biblioteca.com", "h0", "admin", []⟩

def sampleStore : Store :=
  ⟨[sampleBook], [sampleAdmin], [(1, [⟨1, "Great", 5⟩])], [], 6, 2⟩

theorem eraseP_key_not_mem {α : Type} (key : α → Nat) (i : Nat) :
    ∀ l : List α, l.Pairwise (fun a b => key a ≠ key b) →
      ∀ a ∈ l.eraseP (fun a => key a == i), key a ≠ i := by
  intro l
  induction l with
  | nil => intro _ a ha; cases ha
  | cons x xs ih =>
    intro hp a ha
    rw [List.pairwise_cons] at hp
    by_cases hx : key x = i
    · rw [List.eraseP_cons_of_pos (by simp [hx])] at ha
      intro hai
      exact hp.1 a ha (by rw [hx, hai])
    · rw [List.eraseP_cons_of_neg (by simp [hx])] at ha
      rcases List.mem_cons.mp ha with h | h
      · rw [h]; exact hx
      · exact ih hp.2 a h

/-- Claim C2: on an existing id (given stores with unique book ids and
unique review-dict keys, as the source maintains), `eliminar_libro` called
by an admin succeeds, the book is gone (`get_book` finds nothing), the
review sequence of that id is purged and `listar_resenas` returns `[]`,
while users and tokens are untouched; on an absent id it fails `NotFound`
with the store returned nowhere (the caller's store is unchanged). -/
theorem C2_delete_book_cascades (s : Store) (user : User) (libro_id : Nat)
    (hadmin : user.rol = "admin")
    (hids : s.books.Pairwise (fun a b => a.id ≠ b.id))
    (hkeys : s.reviews.Pairwise (fun a b => a.1 ≠ b.1)) :
    ((∃ b ∈ s.books, b.id = libro_id) →
      ∃ s2, eliminar_libro s user libro_id = Except.ok s2 ∧
        get_book s2 libro_id = none ∧
        listar_resenas s2 libro_id = [] ∧
        (∀ p ∈ s2.reviews, p.1 ≠ libro_id) ∧
        s2.users = s.users ∧ s2.tokens = s.tokens) ∧
    ((∀ b ∈ s.books, b.id ≠ libro_id) →
      eliminar_libro s user libro_id = Except.error ApiError.NotFound) := by
  have hok : admin_required user = Except.ok () := by
    unfold admin_required
    rw [if_neg (by rw [hadmin]; exact fun h => h rfl)]
  constructor
  · rintro ⟨b, hb, hbid⟩
    have hany : s.books.any (fun b => b.id == libro_id) = true :=
      List.any_eq_true.mpr ⟨b, hb, by simp [hbid]⟩
    refine ⟨(delete_book s libro_id).1, ?_, ?_, ?_, ?_, ?_, ?_⟩
    · unfold eliminar_libro
      rw [hok]
      simp only [delete_book, hany, if_true]
    · simp only [get_book, delete_book, hany, if_true]
      exact List.find?_eq_none.mpr fun x hx =>
        by simpa using eraseP_key_not_mem Book.id libro_id s.books hids x hx
    · simp only [listar_resenas, delete_book, hany, if_true]
      rw [List.find?_eq_none.mpr fun p hp =>
        by simpa using eraseP_key_not_mem Prod.fst libro_id s.reviews hkeys p hp]
      rfl
    · simp only [delete_book, hany, if_true]
      exact eraseP_key_not_mem Prod.fst libro_id s.reviews hkeys
    · simp only [delete_book, hany, if_true]
    · simp only [delete_book, hany, if_true]
  · intro hnone
    have hany : s.books.any (fun b => b.id == libro_id) = false := by
      rw [List.any_eq_false]
      intro b hb
      simpa using hnone b hb
    unfold eliminar_libro
    rw [hok]
    simp only [delete_book, hany]
    rfl

theorem C2_witness :
    ∃ s2, eliminar_libro sampleStore sampleAdmin 1 = Except.ok s2 ∧
      get_book s2 1 = none ∧
      listar_resenas s2 1 = [] ∧
      (∀ p ∈ s2.reviews, p.1 ≠ 1) ∧
      s2.users = sampleStore.users ∧ s2.tokens = sampleStore.tokens :=
  (C2_delete_book_cascades sampleStore sampleAdmin 1 rfl (by decide) (by decide)).1
    ⟨sampleBook, by decide, rfl⟩

/-- Claim C3, counterexample: registering a user with the role field
omitted from the request body stores the literal role `"usuario"`, which is
not the string `"user"` the claim names. -/
theorem C3_counterexample :
    (registrar_usuario sampleStore (UserCreate.noRole "Ana" "ana@x.com" "secret1")
        (fun c => c)).toOption.map (fun r => r.2.rol) = some "usuario" ∧
    "usuario" ≠ "user" := by
  constructor
  · decide
  · decide

/-- Claim C3, amended: when `registrar_usuario` is called with the role
field omitted and the email is unused, the user that is created and stored
has the default role `"usuario"` (the code's literal for the spec's
non-admin role), not the literal `"user"`. -/
theorem C3_default_role (s : Store) (nombre email clave : String)
    (hashFn : String → String) (h : get_user_by_email s.users email = none) :
    ∃ s2 out, registrar_usuario s (UserCreate.noRole nombre email clave) hashFn =
        Except.ok (s2, out) ∧
      out.rol = "usuario" ∧
      ∃ u, s2.users = s.users ++ [u] ∧ u.rol = "usuario" := by
  unfold registrar_usuario
  rw [show (UserCreate.noRole nombre email clave).email = email from rfl, h]
  exact ⟨_, _, rfl, rfl, _, rfl, rfl⟩

theorem C3_witness :
    ∃ s2 out, registrar_usuario sampleStore (UserCreate.noRole "Ana" "ana@x.com" "secret1")
        (fun c => c) = Except.ok (s2, out) ∧
      out.rol = "usuario" ∧
      ∃ u, s2.users = sampleStore.users ++ [u] ∧ u.rol = "usuario" :=
  C3_default_role sampleStore "Ana" "ana@x.com" "secret1" (fun c => c) (by decide)

/-- Claim C4: `registrar_usuario` takes no caller identity at all (no
authentication or authorization input exists in its signature), and for any
supplied role string — `"admin"` included — it stores that string verbatim
as the new user's role; a user registered with role `"admin"` then passes
`admin_required`. -/
theorem C4_role_verbatim_no_authz (s : Store) (p : UserCreate)
    (hashFn : String → String) (h : get_user_by_email s.users p.email = none) :
    ∃ s2 out u, registrar_usuario s p hashFn = Except.ok (s2, out) ∧
      s2.users = s.users ++ [u] ∧ u.rol = p.rol ∧ out.rol = p.rol ∧
      (p.rol = "admin" → admin_required u = Except.ok ()) := by
  unfold registrar_usuario
  rw [h]
  refine ⟨_, _, _, rfl, rfl, rfl, rfl, ?_⟩
  intro hr
  unfold admin_required
  rw [if_neg (by simp only [hr]; exact fun hc => hc rfl)]

theorem C4_witness :
    ∃ s2 out u, registrar_usuario sampleStore ⟨"Eva", "eva@x.com", "pw1234", "admin"⟩
        (fun c => c) = Except.ok (s2, out) ∧
      s2.users = sampleStore.users ++ [u] ∧ u.rol = "admin" ∧ out.rol = "admin" ∧
      ("admin" = "admin" → admin_required u = Except.ok ()) :=
  C4_role_verbatim_no_authz sampleStore ⟨"Eva", "eva@x.com", "pw1234", "admin"⟩
    (fun c => c) (by decide)

/-- Claim C5, counterexample: the facade method `add_review` itself performs
no validation against the entity store — called with a book id that does
not exist and a rating outside 1–5 and empty text, it still appends the
record and returns it instead of failing. -/
theorem C5_counterexample :
    get_book sampleStore 999 = none ∧
    add_review sampleStore 999 7 "" 0 =
      ({ sampleStore with
          reviews := sampleStore.reviews ++ [(999, [⟨7, "", 0⟩])] }, ⟨7, "", 0⟩) := by
  constructor
  · decide
  · decide

/-- Claim C5, amended: the `addReview` contract (NotFound for a missing
book, ValidationError for a rating outside 1–5 or empty text, otherwise
append-and-return) holds of the boundary layer — the `crear_resena`
endpoint together with its request-model validation — while the facade
method `add_review` it calls performs no validation itself. -/
theorem C5_review_validation_at_boundary (s : Store) (libro_id usuario_id : Nat)
    (texto : String) (cal : Int) :
    ((texto = "" ∨ cal < 1 ∨ 5 < cal) →
      crear_resena s libro_id texto cal usuario_id =
        Except.error ApiError.ValidationError) ∧
    (texto ≠ "" → 1 ≤ cal → cal ≤ 5 → get_book s libro_id = none →
      crear_resena s libro_id texto cal usuario_id = Except.error ApiError.NotFound) ∧
    (texto ≠ "" → 1 ≤ cal → cal ≤ 5 → (get_book s libro_id).isSome →
      crear_resena s libro_id texto cal usuario_id =
        Except.ok (add_review s libro_id usuario_id texto cal)) := by
  refine ⟨?_, ?_, ?_⟩
  · intro h
    unfold crear_resena
    rw [if_pos]
    rcases h with h | h | h
    · exact Or.inl (by rw [h]; decide)
    · exact Or.inr (Or.inl h)
    · exact Or.inr (Or.inr h)
  · intro ht h1 h5 hb
    unfold crear_resena
    rw [if_neg, hb, if_neg (by decide)]
    rintro (h | h | h)
    · exact ht ((strLength_zero_iff texto).mp (by omega))
    · omega
    · omega
  · intro ht h1 h5 hb
    unfold crear_resena
    rw [if_neg, if_pos hb]
    rintro (h | h | h)
    · exact ht ((strLength_zero_iff texto).mp (by omega))
    · omega
    · omega

theorem C5_witness :
    crear_resena sampleStore 1 "Nice" 4 2 =
      Except.ok (add_review sampleStore 1 2 "Nice" 4) :=
  (C5_review_validation_at_boundary sampleStore 1 2 "Nice" 4).2.2
    (by decide) (by decide) (by decide) (by decide)

/-- Claim C6: registration fails with `Conflict` whenever the supplied
email equals a stored user's email up to letter case (lowered comparison),
and the error return carries no store — the caller's store is unchanged,
so no new user is added. -/
theorem C6_duplicate_email_conflict (s : Store) (p : UserCreate)
    (hashFn : String → String) (u : User) (hu : u ∈ s.users)
    (he : strLower u.email = strLower p.email) :
    registrar_usuario s p hashFn = Except.error ApiError.Conflict := by
  have hsome : (get_user_by_email s.users p.email).isSome = true :=
    List.find?_isSome.mpr ⟨u, hu, by rw [he]; exact beq_self_eq_true _⟩
  obtain ⟨v, hv⟩ := Option.isSome_iff_exists.mp hsome
  unfold registrar_usuario
  rw [hv]

theorem C6_witness :
    registrar_usuario sampleStore ⟨"Otro", "ADMIN@BIBLIOTECA.COM", "pw1234", "usuario"⟩
      (fun c => c) = Except.error ApiError.Conflict :=
  C6_duplicate_email_conflict sampleStore
    ⟨"Otro", "ADMIN@BIBLIOTECA.COM", "pw1234", "usuario"⟩ (fun c => c)
    sampleAdmin (by decide) (by decide)

/-- Claim C7: `authenticate` returns `none` — a value, not an exception —
both when no stored user's email matches (case-insensitively) and when a
user matches but the stored digest differs from the hash of the supplied
password; the two failure outcomes are equal, so the caller cannot
distinguish them. -/
theorem C7_auth_failures_indistinguishable (s : Store) (hashFn : String → String)
    (e1 c1 e2 c2 : String)
    (h1 : ∀ u ∈ s.users, strLower u.email ≠ strLower e1)
    (h2 : ∀ u ∈ s.users, strLower u.email = strLower e2 →
      u.password_hash ≠ hashFn c2) :
    authenticate s hashFn e1 c1 = none ∧
    authenticate s hashFn e2 c2 = none ∧
    authenticate s hashFn e1 c1 = authenticate s hashFn e2 c2 := by
  have ha : authenticate s hashFn e1 c1 = none := by
    unfold authenticate
    rw [List.find?_eq_none.mpr fun u hu => by simpa using h1 u hu]
  have hb : authenticate s hashFn e2 c2 = none := by
    unfold authenticate
    cases hf : s.users.find? (fun u => strLower u.email == strLower e2) with
    | none => rfl
    | some u =>
      show (if u.password_hash ≠ hashFn c2 then none else some u) = none
      rw [if_pos (h2 u (List.mem_of_find?_eq_some hf)
        (by simpa using List.find?_some hf))]
  exact ⟨ha, hb, by rw [ha, hb]⟩

theorem C7_witness :
    authenticate sampleStore (fun c => c) "nobody@x.com" "whatever" = none ∧
    authenticate sampleStore (fun c => c) "admin@biblioteca.com" "wrongpw" = none ∧
    authenticate sampleStore (fun c => c) "nobody@x.com" "whatever" =
      authenticate sampleStore (fun c => c) "admin@biblioteca.com" "wrongpw" :=
  C7_auth_failures_indistinguishable sampleStore (fun c => c)
    "nobody@x.com" "whatever" "admin@biblioteca.com" "wrongpw"
    (by decide) (by decide)

theorem updateFirst_no_match (i : Nat)
    (c : Option String × Option String × Option String × Option String) :
    ∀ books : List Book, (∀ b ∈ books, b.id ≠ i) →
      updateFirst books i c = (books, none) := by
  intro books
  induction books with
  | nil => intro _; rfl
  | cons b rest ih =>
    intro h
    unfold updateFirst
    rw [if_neg (by simpa using h b (List.mem_cons_self b rest)),
      ih fun x hx => h x (List.mem_cons_of_mem b hx)]

theorem updateFirst_found (i : Nat)
    (c : Option String × Option String × Option String × Option String)
    (b : Book) (hb : b.id = i) :
    ∀ l1 l2 : List Book, (∀ x ∈ l1, x.id ≠ i) →
      updateFirst (l1 ++ b :: l2) i c =
        (l1 ++ applyChanges b c :: l2, some (applyChanges b c)) := by
  intro l1
  induction l1 with
  | nil =>
    intro l2 _
    simp only [List.nil_append]
    unfold updateFirst
    rw [if_pos (by simp [hb])]
  | cons x xs ih =>
    intro l2 h
    simp only [List.cons_append]
    unfold updateFirst
    rw [if_neg (by simpa using h x (List.mem_cons_self x xs)),
      ih l2 fun y hy => h y (List.mem_cons_of_mem x hy)]

/-- Claim C8, counterexample: an explicitly provided empty-string field is
applied — updating the sample book with title `""` stores `""` as the new
title — so the code does not apply "only the provided non-empty fields". -/
theorem C8_counterexample :
    (update_book sampleStore 1 (some "", none, none, none)).2 =
      some ⟨1, "", "Herbert", "Novela", "contenido x"⟩ ∧
    (update_book sampleStore 1 (some "", none, none, none)).1.books =
      [⟨1, "", "Herbert", "Novela", "contenido x"⟩] :=
  ⟨by decide, by decide⟩

/-- Claim C8, amended: `update_book` on an existing id applies exactly the
provided (non-`None`) fields of the change set — empty strings included —
to the first book with that id, leaving its unprovided fields, every other
book, and the users, reviews, tokens and counters unchanged; on an absent
id it returns `none` (the endpoint then raises 404) with the store fully
unchanged. -/
theorem C8_update_book_frame (s : Store) (libro_id : Nat)
    (c : Option String × Option String × Option String × Option String) :
    ((∀ b ∈ s.books, b.id ≠ libro_id) → update_book s libro_id c = (s, none)) ∧
    (∀ l1 b l2, s.books = l1 ++ b :: l2 → b.id = libro_id →
      (∀ x ∈ l1, x.id ≠ libro_id) →
      update_book s libro_id c =
        ({ s with books := l1 ++ applyChanges b c :: l2 },
          some (applyChanges b c))) ∧
    (∀ b : Book,
      (c.1 = none → (applyChanges b c).titulo = b.titulo) ∧
      (c.2.1 = none → (applyChanges b c).autor = b.autor) ∧
      (c.2.2.1 = none → (applyChanges b c).categoria = b.categoria) ∧
      (c.2.2.2 = none → (applyChanges b c).contenido = b.contenido) ∧
      (∀ v, c.1 = some v → (applyChanges b c).titulo = v) ∧
      (∀ v, c.2.1 = some v → (applyChanges b c).autor = v) ∧
      (∀ v, c.2.2.1 = some v → (applyChanges b c).categoria = v) ∧
      (∀ v, c.2.2.2 = some v → (applyChanges b c).contenido = v) ∧
      (applyChanges b c).id = b.id) := by
  refine ⟨?_, ?_, ?_⟩
  · intro h
    unfold update_book
    rw [updateFirst_no_match libro_id c s.books h]
  · intro l1 b l2 hsb hbid hl1
    unfold update_book
    rw [hsb, updateFirst_found libro_id c b hbid l1 l2 hl1]
  · intro b
    refine ⟨fun h => ?_, fun h => ?_, fun h => ?_, fun h => ?_,
      fun v h => ?_, fun v h => ?_, fun v h => ?_, fun v h => ?_, rfl⟩ <;>
      simp [applyChanges, h]

theorem C8_witness :
    update_book sampleStore 1 (some "Dune2", none, none, none) =
      ({ sampleStore with
          books := [] ++ applyChanges sampleBook (some "Dune2", none, none, none) :: [] },
        some (applyChanges sampleBook (some "Dune2", none, none, none))) :=
  (C8_update_book_frame sampleStore 1 (some "Dune2", none, none, none)).2.1
    [] sampleBook [] (by decide) (by decide) (by decide)

/-- Claim C10: with both filters given (present and non-empty, as the
source's truthiness test requires), `list_books` is exactly the filter of
the stored books — hence a subsequence of the store, i.e. insertion order —
keeping a book iff its category equals the filter case-insensitively
(exact equality) AND the search string occurs case-insensitively as a
substring of its title or of its author. -/
theorem C10_list_books_filters (s : Store) (c q : String)
    (hc : c ≠ "") (hq : q ≠ "") :
    list_books s (some c) (some q) =
      s.books.filter (fun b =>
        (containsCI b.titulo q || containsCI b.autor q) &&
        (strLower b.categoria == strLower c)) ∧
    (list_books s (some c) (some q)).Sublist s.books ∧
    (∀ b : Book, b ∈ list_books s (some c) (some q) ↔
      b ∈ s.books ∧ strLower b.categoria = strLower c ∧
        ((strLower q).data <:+: (strLower b.titulo).data ∨
         (strLower q).data <:+: (strLower b.autor).data)) := by
  have heq : list_books s (some c) (some q) =
      (s.books.filter (fun b => strLower b.categoria == strLower c)).filter
        (fun b => containsCI b.titulo q || containsCI b.autor q) := by
    simp only [list_books, if_neg hc, if_neg hq]
  refine ⟨?_, ?_, ?_⟩
  · rw [heq, List.filter_filter]
  · rw [heq]
    exact (List.filter_sublist _).trans (List.filter_sublist _)
  · intro b
    rw [heq]
    simp only [List.mem_filter, containsCI, Bool.or_eq_true, decide_eq_true_eq,
      beq_iff_eq]
    tauto

theorem C10_witness :
    list_books sampleStore (some "NOVELA") (some "herb") =
      sampleStore.books.filter (fun b =>
        (containsCI b.titulo "herb" || containsCI b.autor "herb") &&
        (strLower b.categoria == strLower "NOVELA")) ∧
    (list_books sampleStore (some "NOVELA") (some "herb")).Sublist sampleStore.books ∧
    (∀ b : Book, b ∈ list_books sampleStore (some "NOVELA") (some "herb") ↔
      b ∈ sampleStore.books ∧ strLower b.categoria = strLower "NOVELA" ∧
        ((strLower "herb").data <:+: (strLower b.titulo).data ∨
         (strLower "herb").data <:+: (strLower b.autor).data)) :=
  C10_list_books_filters sampleStore "NOVELA" "herb" (by decide) (by decide)

end Biblio
